import Mathlib

/-
Verification of the token-resolution and price-aggregation services of the
Crypto-Api-Test-Assignment repository (app/services/openai_service.py and
app/services/report_generator.py).

The Python services are shallowly embedded as pure Lean functions.  Network
effects are modelled by an explicit environment `Env` of provider oracles:
each upstream endpoint is a function from the request parameters and the
number of previous calls to that endpoint (so stateful mocks such as
"429 twice, then 200" are expressible) to a parsed response.  Every network
call and every sleep is appended to an explicit trace inside a state `St`,
so claims about call counts, ordering and elapsed time become statements
about the trace and the clock.

Python exceptions that the code does not catch (JSON decoding failures on
2xx bodies outside a try block, KeyError on dictionary indexing) are
modelled as `Except.error` faults; values returned normally are `.ok`.
Python truthiness of optional strings (None and the empty string are both
falsy) is modelled by `pyTruthy`.
-/

set_option autoImplicit false

namespace CryptoApi

/-- Fault models a Python exception escaping uncaught: a JSON decode error
from `response.json()` on a malformed body, or a KeyError / TypeError from
indexing a dictionary that lacks the key. -/
inductive Fault where
  | jsonDecode
  | keyError
  deriving DecidableEq, Repr

/-- JVal is an opaque JSON scalar as stored in a parsed Python dictionary:
`jnull` is JSON null (Python None), the other constructors carry the value
verbatim.  The services never compute with the values, they only move them
around and test truthiness. -/
inductive JVal where
  | jnull
  | jstr (s : String)
  | jnum (n : Int)
  deriving DecidableEq, Repr

/-- Python truthiness of a JSON value: None, "" and 0 are falsy. -/
def JVal.truthy : JVal → Bool
  | .jnull => false
  | .jstr s => !(s == "")
  | .jnum n => !(n == 0)

/-- Python truthiness of `dict.get(k)`: a missing key gives None (falsy). -/
def optTruthy : Option JVal → Bool
  | none => false
  | some v => v.truthy

/-- Python truthiness of an optional string (`if contract_address:`):
None and the empty string are falsy. -/
def pyTruthy : Option String → Bool
  | none => false
  | some s => !(s == "")

/-- ASCII uppercase of one character: the model of Python `str.upper` on
the ASCII ticker strings this service handles. -/
def asciiUpperChar (c : Char) : Char :=
  if 'a' ≤ c ∧ c ≤ 'z' then Char.ofNat (c.toNat - 32) else c

/-- ASCII lowercase of one character: the model of Python `str.lower`. -/
def asciiLowerChar (c : Char) : Char :=
  if 'A' ≤ c ∧ c ≤ 'Z' then Char.ofNat (c.toNat + 32) else c

/-- Model of Python `symbol.upper()`. -/
def pyUpper (s : String) : String := ⟨s.data.map asciiUpperChar⟩

/-- Model of Python `symbol.lower()`. -/
def pyLower (s : String) : String := ⟨s.data.map asciiLowerChar⟩

/-- First-match association-list lookup, the model of indexing a parsed
JSON object (whose keys are distinct). -/
def jLookup : List (String × JVal) → String → Option JVal
  | [], _ => none
  | (k, v) :: rest, key => if k == key then some v else jLookup rest key

/-- Model of Python `data.get(key, default)` on a parsed JSON object. -/
def pyGet (d : List (String × JVal)) (key : String) (default : JVal) : JVal :=
  (jLookup d key).getD default

/-- String-valued association-list lookup (used for the `platforms`
mapping of a Coingecko coin, whose values are address strings). -/
def sLookup : List (String × String) → String → Option String
  | [], _ => none
  | (k, v) :: rest, key => if k == key then some v else sLookup rest key

/-- PLATFORM_MAPPING from openai_service.py: chain parameter to Coingecko
platform key. -/
def PLATFORM_MAPPING : List (String × String) :=
  [("eth", "ethereum"),
   ("bsc", "binance-smart-chain"),
   ("polygon", "polygon"),
   ("avalanche", "avalanche"),
   ("fantom", "fantom")]

/-- Parsed response of the Coingecko `/search` endpoint.  `body = none`
models a body that fails to parse as JSON; otherwise the body is the list
of entries of `data.get("coins", [])`, each entry carrying its `"id"`
field when present (`none` models a first entry without an `"id"` key,
where `coins[0]["id"]` raises). -/
structure SearchResp where
  status : Nat
  body : Option (List (Option String))
  deriving DecidableEq, Repr

/-- Parsed response of the Coingecko `/coins/{id}` endpoint.  `body = none`
models a malformed JSON body; otherwise the body is the platform-to-address
mapping `data.get("platforms", {})` (an absent `platforms` key is the empty
mapping). -/
structure DetailResp where
  status : Nat
  body : Option (List (String × String))
  deriving DecidableEq, Repr

/-- Parsed response of the Ethplorer `/search` endpoint.  Outer `none`
models a malformed JSON body; the inner option is `data.get("tokens")`
(absent key gives Python None); each token entry carries its
`.get("address")` value. -/
structure EthResp where
  status : Nat
  body : Option (Option (List (Option String)))
  deriving DecidableEq, Repr

/-- Parsed response of the Moralis price endpoint.  `body = none` models a
body that raises on `response.json()`; `text` is `response.text`, which the
service embeds in error results. -/
structure MoralisResp where
  status : Nat
  body : Option (List (String × JVal))
  text : String
  deriving DecidableEq, Repr

/-- A recorded effect: one network call to a named upstream with its
request parameters, or one `asyncio.sleep`. -/
inductive Event where
  | search (query : String)
  | detail (tokenId : String)
  | eth (query : String)
  | moralis (addr : String) (chain : String)
  | sleep (secs : Nat)
  deriving DecidableEq, Repr

/-- The environment of provider oracles.  Each oracle receives the request
parameters and the number of previous calls to that same endpoint, so a
test double may answer differently on successive calls. -/
structure Env where
  search : String → Nat → SearchResp
  detail : String → Nat → DetailResp
  eth : String → Nat → EthResp
  moralis : String → String → Nat → MoralisResp

/-- The effect state threaded through a run: per-endpoint call counters,
a clock advanced by sleeps (in seconds), and the ordered trace of events. -/
structure St where
  searchN : Nat
  detailN : Nat
  ethN : Nat
  moralisN : Nat
  clock : Nat
  trace : List Event
  deriving DecidableEq, Repr

/-- The pristine state at the start of a request. -/
def St.init : St := ⟨0, 0, 0, 0, 0, []⟩

/-- Record one Coingecko search call. -/
def St.logSearch (st : St) (q : String) : St :=
  { st with searchN := st.searchN + 1, trace := st.trace ++ [.search q] }

/-- Record one Coingecko coin-detail call. -/
def St.logDetail (st : St) (t : String) : St :=
  { st with detailN := st.detailN + 1, trace := st.trace ++ [.detail t] }

/-- Record one Ethplorer call. -/
def St.logEth (st : St) (q : String) : St :=
  { st with ethN := st.ethN + 1, trace := st.trace ++ [.eth q] }

/-- Record one Moralis call. -/
def St.logMoralis (st : St) (a c : String) : St :=
  { st with moralisN := st.moralisN + 1, trace := st.trace ++ [.moralis a c] }

/-- Record one `asyncio.sleep(secs)`. -/
def St.logSleep (st : St) (secs : Nat) : St :=
  { st with clock := st.clock + secs, trace := st.trace ++ [.sleep secs] }

/-- The retry loop of `get_token_id`, with the remaining number of attempts
as fuel (the source fixes `retries = 3`).  On 429 it sleeps 2 seconds and
retries; on any other non-200 status it returns None; on 200 it parses the
body (a malformed body raises), returns None on an empty `coins` list and
otherwise the first entry's `"id"` (raising when that key is missing).
When the attempts are exhausted it returns None. -/
def tokenIdLoop (env : Env) (q : String) : Nat → St → Except Fault (Option String) × St
  | 0, st => (.ok none, st)
  | n + 1, st =>
    let resp := env.search q st.searchN
    let st1 := st.logSearch q
    if resp.status == 429 then
      tokenIdLoop env q n (st1.logSleep 2)
    else if !(resp.status == 200) then
      (.ok none, st1)
    else
      match resp.body with
      | none => (.error .jsonDecode, st1)
      | some [] => (.ok none, st1)
      | some (none :: _) => (.error .keyError, st1)
      | some (some tid :: _) => (.ok (some tid), st1)

/-- Embedding of `get_token_id` from openai_service.py: searches Coingecko
for `symbol.lower()` with up to 3 attempts, retrying only on HTTP 429. -/
def get_token_id (env : Env) (symbol : String) (st : St) :
    Except Fault (Option String) × St :=
  tokenIdLoop env (pyLower symbol) 3 st

/-- Embedding of `_get_contract_from_coingecko` from openai_service.py.
When the token id is falsy (`if not token_id:` — None or the empty string)
it returns None without a network call.  Otherwise it fetches the coin
detail, returns None on non-200, raises on a malformed 200 body, and
otherwise returns `data.get("platforms", {}).get(platform_key)` verbatim —
note that this may be the empty string when the provider maps the platform
key to `""`. -/
def get_contract_from_coingecko (env : Env) (token_id : Option String)
    (chain : String) (st : St) : Except Fault (Option String) × St :=
  match token_id with
  | none => (.ok none, st)
  | some tid =>
    if tid == "" then
      (.ok none, st)
    else
      let resp := env.detail tid st.detailN
      let st1 := st.logDetail tid
      if !(resp.status == 200) then
        (.ok none, st1)
      else
        match resp.body with
        | none => (.error .jsonDecode, st1)
        | some platforms =>
          let platform_key := (sLookup PLATFORM_MAPPING chain).getD "ethereum"
          (.ok (sLookup platforms platform_key), st1)

/-- The hardcoded canonical wrapped-native-asset (WETH) address returned by
the native-asset short-circuit of `get_token_contract`. -/
def wethAddress : String := "0xC02aaa39b223FE8D0A0E5C4F27eAD9083C756Cc2"

/-- The wrapped-variant loop of `get_token_contract`: for each query in
order, resolve a token id and then a contract address, returning the first
truthy address and otherwise None. -/
def tryWrapped (env : Env) (chain : String) :
    List String → St → Except Fault (Option String) × St
  | [], st => (.ok none, st)
  | q :: qs, st =>
    match get_token_id env q st with
    | (.error f, st1) => (.error f, st1)
    | (.ok tid, st1) =>
      match get_contract_from_coingecko env tid chain st1 with
      | (.error f, st2) => (.error f, st2)
      | (.ok addr, st2) =>
        if pyTruthy addr then (.ok addr, st2) else tryWrapped env chain qs st2

/-- The last-resort Ethplorer stage of `get_token_contract`.  The whole
stage sits inside `try: ... except Exception:` in the source, so no fault
can escape it: a malformed body is caught and the stage yields None.  It
yields the first token's address when that address is truthy. -/
def ethplorerStage (env : Env) (symbol : String) (st : St) :
    Option String × St :=
  let resp := env.eth symbol st.ethN
  let st1 := st.logEth symbol
  if resp.status == 200 then
    match resp.body with
    | none => (none, st1)
    | some none => (none, st1)
    | some (some []) => (none, st1)
    | some (some (t :: _)) => if pyTruthy t then (t, st1) else (none, st1)
  else
    (none, st1)

/-- Embedding of `get_token_contract` from openai_service.py, the contract
resolution pipeline: native-asset short-circuit, unsupported-asset
short-circuit, primary Coingecko attempt, three wrapped-variant attempts,
Ethplorer fallback, and None when everything fails. -/
def get_token_contract (env : Env) (symbol : String) (chain : String)
    (st : St) : Except Fault (Option String) × St :=
  if ["ETH", "ETHEREUM"].contains (pyUpper symbol) then
    (.ok (some wethAddress), st)
  else if ["SOL", "SOLANA", "XLM", "STELLAR"].contains (pyUpper symbol) then
    (.ok none, st)
  else
    match get_token_id env symbol st with
    | (.error f, st1) => (.error f, st1)
    | (.ok tid, st1) =>
      match get_contract_from_coingecko env tid chain st1 with
      | (.error f, st2) => (.error f, st2)
      | (.ok addr, st2) =>
        if pyTruthy addr then
          (.ok addr, st2)
        else
          let wrapped_variants :=
            ["wrapped " ++ symbol, "w" ++ pyLower symbol,
             "wrapped-" ++ pyLower symbol]
          match tryWrapped env chain wrapped_variants st2 with
          | (.error f, st3) => (.error f, st3)
          | (.ok addr2, st3) =>
            if pyTruthy addr2 then
              (.ok addr2, st3)
            else
              match ethplorerStage env symbol st3 with
              | (some a, st4) => (.ok (some a), st4)
              | (none, st4) => (.ok none, st4)

/-- The normalized price record built by `get_crypto_price` on a successful
Moralis response: the source dictionary literal, field for field.  Fields
absent from the payload are filled with the `"N/A"` marker by `pyGet`. -/
structure PriceRecord where
  symbol : String
  current_price : JVal
  price_change_24h : JVal
  price_change_percent : JVal
  high_24h : JVal
  low_24h : JVal
  volume : JVal
  source : String
  raw_response : List (String × JVal)
  deriving DecidableEq, Repr

/-- Result of `get_crypto_price`: either an error dictionary
`{"error": ..., ("response": ...)}` or the normalized record. -/
inductive PriceResult where
  | failure (error : String) (response : Option String)
  | record (r : PriceRecord)
  deriving DecidableEq, Repr

/-- The `"N/A"` marker used for fields missing from the Moralis payload. -/
def NA : JVal := .jstr "N/A"

/-- Embedding of `get_crypto_price` from openai_service.py: resolve the
contract address (an error result when the pipeline yields a falsy
address, with no Moralis call), then one Moralis price call; non-200 and
malformed-JSON responses become distinct error results (the source catches
`json.JSONDecodeError` there), and a well-formed 200 body is normalized
into a `PriceRecord` with `"N/A"` defaults and the raw payload retained. -/
def get_crypto_price (env : Env) (symbol : String) (chain : String)
    (st : St) : Except Fault PriceResult × St :=
  match get_token_contract env symbol chain st with
  | (.error f, st1) => (.error f, st1)
  | (.ok contract_address, st1) =>
    match contract_address with
    | none =>
      (.ok (.failure ("Contract address not found for token " ++ symbol ++
        " on chain " ++ chain ++ ". Moralis data unavailable.") none), st1)
    | some addr =>
      if addr == "" then
        (.ok (.failure ("Contract address not found for token " ++ symbol ++
          " on chain " ++ chain ++ ". Moralis data unavailable.") none), st1)
      else
        let resp := env.moralis addr chain st1.moralisN
        let st2 := st1.logMoralis addr chain
        if !(resp.status == 200) then
          (.ok (.failure ("Moralis API error. Code: " ++ toString resp.status)
            (some resp.text)), st2)
        else
          match resp.body with
          | none =>
            (.ok (.failure "Invalid JSON response from Moralis API"
              (some resp.text)), st2)
          | some data =>
            (.ok (.record
              { symbol := symbol
                current_price := pyGet data "usdPrice" NA
                price_change_24h := pyGet data "priceChange" NA
                price_change_percent := pyGet data "priceChangePercent" NA
                high_24h := pyGet data "highPrice" NA
                low_24h := pyGet data "lowPrice" NA
                volume := pyGet data "volume" NA
                source := "Moralis"
                raw_response := data }), st2)

/-- The metadata record built by `get_crypto_metadata` on a successful
Moralis response: every field is `data.get(key)`, so an absent key yields
`none`. -/
structure MetadataRecord where
  tokenName : Option JVal
  tokenSymbol : Option JVal
  tokenLogo : Option JVal
  tokenDecimals : Option JVal
  nativePrice : Option JVal
  usdPrice : Option JVal
  exchangeName : Option JVal
  exchangeAddress : Option JVal
  tokenAddress : Option JVal
  deriving DecidableEq, Repr

/-- Result of `get_crypto_metadata`: an error dictionary or the record. -/
inductive MetaResult where
  | failure (error : String) (response : Option String)
  | record (r : MetadataRecord)
  deriving DecidableEq, Repr

/-- Embedding of `get_crypto_metadata` from openai_service.py.  The JSON
parsing and record construction sit inside `try: ... except Exception:`,
so a malformed body becomes an error result whose message starts with
"JSON processing error" (the source appends `str(e)`; the embedding keeps
the fixed stem).  A record is returned only when its `tokenAddress` field
is truthy; otherwise the error is `"Contract address not found"`. -/
def get_crypto_metadata (env : Env) (symbol : String) (chain : String)
    (st : St) : Except Fault MetaResult × St :=
  match get_token_contract env symbol chain st with
  | (.error f, st1) => (.error f, st1)
  | (.ok contract_address, st1) =>
    match contract_address with
    | none =>
      (.ok (.failure ("Unable to retrieve contract address for token " ++
        symbol ++ " on chain " ++ chain) none), st1)
    | some addr =>
      if addr == "" then
        (.ok (.failure ("Unable to retrieve contract address for token " ++
          symbol ++ " on chain " ++ chain) none), st1)
      else
        let resp := env.moralis addr chain st1.moralisN
        let st2 := st1.logMoralis addr chain
        if !(resp.status == 200) then
          (.ok (.failure ("Moralis API error. Code: " ++ toString resp.status)
            (some resp.text)), st2)
        else
          match resp.body with
          | none => (.ok (.failure "JSON processing error" none), st2)
          | some data =>
            let result : MetadataRecord :=
              { tokenName := jLookup data "tokenName"
                tokenSymbol := jLookup data "tokenSymbol"
                tokenLogo := jLookup data "tokenLogo"
                tokenDecimals := jLookup data "tokenDecimals"
                nativePrice := jLookup data "nativePrice"
                usdPrice := jLookup data "usdPrice"
                exchangeName := jLookup data "exchangeName"
                exchangeAddress := jLookup data "exchangeAddress"
                tokenAddress := jLookup data "tokenAddress" }
            if optTruthy result.tokenAddress then
              (.ok (.record result), st2)
            else
              (.ok (.failure "Contract address not found" none), st2)

/-- Python `str()` of a JSON value, as interpolated into the prompt. -/
def JVal.pyStr : JVal → String
  | .jnull => "None"
  | .jstr s => s
  | .jnum n => toString n

/-- The report dictionary assembled by `generate_crypto_report`. -/
structure Report where
  symbol : String
  current_price : JVal
  price_change_percent : JVal
  high_24h : JVal
  low_24h : JVal
  volume : JVal
  source : String
  report_summary : String
  deriving DecidableEq, Repr

/-- Embedding of `generate_crypto_report` from report_generator.py.  The
generative-text collaborator is the oracle `llm` from prompt to the first
completion's content.  The source indexes `data["current_price"]`,
`data["price_change_percent"]` and `data["volume"]` while building the
prompt with no guard: when `get_crypto_price` returned an error
dictionary those keys are missing and the indexing raises KeyError, which
nothing catches — modelled as `.error .keyError`. -/
def generate_crypto_report (env : Env) (llm : String → String)
    (symbol : String) (st : St) : Except Fault Report × St :=
  match get_crypto_price env symbol "eth" st with
  | (.error f, st1) => (.error f, st1)
  | (.ok (.failure _ _), st1) => (.error .keyError, st1)
  | (.ok (.record data), st1) =>
    let prompt :=
      "\n    Generate an analytical report for the token " ++ symbol ++
      ".\n    Price: " ++ data.current_price.pyStr ++
      " USD\n    24h Change: " ++ data.price_change_percent.pyStr ++
      "%\n    Trading Volume: " ++ data.volume.pyStr ++
      "\n    Provide an investment analysis, risks, and insights.\n    "
    let report_summary := llm prompt
    (.ok
      { symbol := symbol
        current_price := data.current_price
        price_change_percent := data.price_change_percent
        high_24h := data.high_24h
        low_24h := data.low_24h
        volume := data.volume
        source := data.source
        report_summary := report_summary }, st1)

/-! Test-double environments used in the scenario theorems below. -/

/-- A neutral provider environment: every endpoint answers 404 with a
well-formed empty body. -/
def envEmpty : Env :=
  { search := fun _ _ => { status := 404, body := some [] }
    detail := fun _ _ => { status := 404, body := some [] }
    eth := fun _ _ => { status := 404, body := some none }
    moralis := fun _ _ _ => { status := 404, body := some [], text := "" } }

/-- A search provider that is rate limited on every call. -/
def env429 : Env :=
  { envEmpty with search := fun _ _ => { status := 429, body := none } }

/-- A search provider that is rate limited on its first two calls and then
answers 200 with a single coin carrying the given id. -/
def envRetry (id : String) : Env :=
  { envEmpty with
    search := fun _ n =>
      if n < 2 then { status := 429, body := none }
      else { status := 200, body := some [some id] } }

/-- A provider for the fallback-ordering scenario: the first two
search/detail rounds find a coin whose platform mapping has no address,
and the third round resolves to the given address. -/
def envFallback (a : String) : Env :=
  { envEmpty with
    search := fun _ n =>
      match n with
      | 0 => { status := 200, body := some [some "id0"] }
      | 1 => { status := 200, body := some [some "id1"] }
      | _ => { status := 200, body := some [some "id2"] }
    detail := fun _ n =>
      match n with
      | 0 => { status := 200, body := some [] }
      | 1 => { status := 200, body := some [] }
      | _ => { status := 200, body := some [("ethereum", a)] } }

/-- A provider where the primary attempt resolves a coin whose platform
mapping maps the chain's platform key to the empty string, and every later
stage fails. -/
def envEmptyAddr : Env :=
  { envEmpty with
    search := fun _ n =>
      if n == 0 then { status := 200, body := some [some "tok"] }
      else { status := 404, body := some [] }
    detail := fun _ _ => { status := 200, body := some [("ethereum", "")] } }

/-- A search provider whose 200 response body is malformed JSON. -/
def envBadBody : Env :=
  { envEmpty with search := fun _ _ => { status := 200, body := none } }

/-- A search provider whose 200 response body parses as JSON but whose
first coin entry lacks an "id" key, so `coins[0]["id"]` raises. -/
def envNoId : Env :=
  { envEmpty with search := fun _ _ => { status := 200, body := some [none] } }

/-- A pricing provider answering 201 (a 2xx status other than 200) with a
well-formed body. -/
def envMoralis201 : Env :=
  { envEmpty with
    moralis := fun _ _ _ =>
      { status := 201, body := some [("usdPrice", .jnum 65000)], text := "t201" } }

/-- A pricing provider answering 200 with a well-formed body that lacks
the "volume" key (and the "tokenAddress" key). -/
def envMoralisNoVolume : Env :=
  { envEmpty with
    moralis := fun _ _ _ =>
      { status := 200, body := some [("usdPrice", .jnum 65000)], text := "ok" } }

/-- A pricing provider answering 200 with a well-formed empty body. -/
def envMoralisEmptyBody : Env :=
  { envEmpty with
    moralis := fun _ _ _ => { status := 200, body := some [], text := "ok" } }

/-! Helper lemmas: the contract resolution pipeline never touches the
pricing provider, so it preserves the Moralis call counter. -/

theorem tokenIdLoop_moralisN (env : Env) (q : String) :
    ∀ (n : Nat) (st : St), ((tokenIdLoop env q n st).2).moralisN = st.moralisN := by
  intro n
  induction n with
  | zero => intro st; rfl
  | succ n ih =>
    intro st
    simp only [tokenIdLoop]
    split
    · rw [ih]; rfl
    · split
      · rfl
      · split <;> rfl

theorem get_token_id_moralisN (env : Env) (s : String) (st : St) :
    ((get_token_id env s st).2).moralisN = st.moralisN :=
  tokenIdLoop_moralisN env (pyLower s) 3 st

theorem get_contract_moralisN (env : Env) (tid : Option String) (c : String)
    (st : St) :
    ((get_contract_from_coingecko env tid c st).2).moralisN = st.moralisN := by
  simp only [get_contract_from_coingecko]
  split
  · rfl
  · split
    · rfl
    · split
      · rfl
      · split <;> rfl

theorem tryWrapped_moralisN (env : Env) (c : String) :
    ∀ (qs : List String) (st : St),
      ((tryWrapped env c qs st).2).moralisN = st.moralisN := by
  intro qs
  induction qs with
  | nil => intro st; rfl
  | cons q qs ih =>
    intro st
    have h1 := get_token_id_moralisN env q st
    simp only [tryWrapped]
    split
    · next heq => rw [heq] at h1; exact h1
    · next tid st1 heq =>
      rw [heq] at h1
      have h2 := get_contract_moralisN env tid c st1
      split
      · next heq2 => rw [heq2] at h2; exact h2.trans h1
      · next addr st2 heq2 =>
        rw [heq2] at h2
        split
        · exact h2.trans h1
        · rw [ih st2]; exact h2.trans h1

theorem ethplorerStage_moralisN (env : Env) (s : String) (st : St) :
    ((ethplorerStage env s st).2).moralisN = st.moralisN := by
  simp only [ethplorerStage]
  split
  · split
    · rfl
    · rfl
    · rfl
    · split <;> rfl
  · rfl

theorem get_token_contract_moralisN (env : Env) (s c : String) (st : St) :
    ((get_token_contract env s c st).2).moralisN = st.moralisN := by
  simp only [get_token_contract]
  split
  · rfl
  · split
    · rfl
    · have h1 := get_token_id_moralisN env s st
      split
      · next heq => rw [heq] at h1; exact h1
      · next tid st1 heq =>
        rw [heq] at h1
        have h2 := get_contract_moralisN env tid c st1
        split
        · next heq2 => rw [heq2] at h2; exact h2.trans h1
        · next addr st2 heq2 =>
          rw [heq2] at h2
          have h12 := h2.trans h1
          split
          · exact h12
          · have h3 := tryWrapped_moralisN env c
              ["wrapped " ++ s, "w" ++ pyLower s, "wrapped-" ++ pyLower s] st2
            split
            · next heq3 => rw [heq3] at h3; exact h3.trans h12
            · next addr2 st3 heq3 =>
              rw [heq3] at h3
              have h123 := h3.trans h12
              have h4 := ethplorerStage_moralisN env s st3
              split
              · exact h123
              · split
                · next heq4 => rw [heq4] at h4; exact h4.trans h123
                · next heq4 => rw [heq4] at h4; exact h4.trans h123

/-! Claim theorems. -/

/-- C2: for every symbol, `get_token_id` issues its search with the symbol
lowercased (every search event in both traces carries `pyLower s`).
Against a provider that is rate limited twice and then answers 200 with a
result, it succeeds on the 3rd attempt with the clock advanced by 2 waits
of 2 seconds (clock = 4).  Against a provider that answers 429 on all 3
attempts it returns absent (`Except.ok none`, not a fault). -/
theorem c2_token_id_retry (s id : String) :
    get_token_id (envRetry id) s St.init =
      (.ok (some id),
       { searchN := 3, detailN := 0, ethN := 0, moralisN := 0, clock := 4,
         trace := [.search (pyLower s), .sleep 2, .search (pyLower s), .sleep 2,
                   .search (pyLower s)] }) ∧
    get_token_id env429 s St.init =
      (.ok none,
       { searchN := 3, detailN := 0, ethN := 0, moralisN := 0, clock := 6,
         trace := [.search (pyLower s), .sleep 2, .search (pyLower s), .sleep 2,
                   .search (pyLower s), .sleep 2] }) :=
  ⟨rfl, rfl⟩

/-- C3: for every symbol whose uppercase form is "ETH" or "ETHEREUM",
every chain, every provider environment and every starting state, the
pipeline returns the canonical WETH address and leaves the state untouched
(zero network calls: the trace does not grow). -/
theorem c3_native_short_circuit (env : Env) (s c : String) (st : St)
    (h : (["ETH", "ETHEREUM"].contains (pyUpper s)) = true) :
    get_token_contract env s c st = (.ok (some wethAddress), st) := by
  simp only [get_token_contract, h, if_true]

/-- Witness for C3 at symbol "Eth" (mixed casing) on chain "bsc". -/
theorem c3_native_short_circuit_witness :
    (["ETH", "ETHEREUM"].contains (pyUpper "Eth")) = true ∧
    get_token_contract envEmpty "Eth" "bsc" St.init =
      (.ok (some wethAddress), St.init) :=
  ⟨by decide, c3_native_short_circuit envEmpty "Eth" "bsc" St.init (by decide)⟩

/-- C4: for every symbol whose uppercase form is in the unsupported set
{"SOL", "SOLANA", "XLM", "STELLAR"}, every chain, every provider
environment and every starting state, the pipeline returns absent and
leaves the state untouched (zero network calls). -/
theorem c4_unsupported_short_circuit (env : Env) (s c : String) (st : St)
    (h1 : (["ETH", "ETHEREUM"].contains (pyUpper s)) = false)
    (h2 : (["SOL", "SOLANA", "XLM", "STELLAR"].contains (pyUpper s)) = true) :
    get_token_contract env s c st = (.ok none, st) := by
  simp only [get_token_contract, h1, h2, if_true, Bool.false_eq_true, if_false]

/-- C5: whenever the contract resolution pipeline returns absent (ending in
state st2), `get_crypto_price` returns an error result whose message
mentions "Contract address not found", `get_crypto_metadata` returns its
error result, both leave the state exactly as the pipeline left it (so no
further network call of any kind is issued), and in particular the Moralis
call counter equals its value before the pipeline ran: zero pricing calls
in the whole run. -/
theorem c5_absent_contract_gates_pricing (env : Env) (s c : String)
    (st st2 : St)
    (h : get_token_contract env s c st = (.ok none, st2)) :
    get_crypto_price env s c st =
      (.ok (.failure ("Contract address not found for token " ++ s ++
        " on chain " ++ c ++ ". Moralis data unavailable.") none), st2) ∧
    get_crypto_metadata env s c st =
      (.ok (.failure ("Unable to retrieve contract address for token " ++ s ++
        " on chain " ++ c) none), st2) ∧
    st2.moralisN = st.moralisN ∧
    (∃ pre suf, "Contract address not found for token " ++ s ++
        " on chain " ++ c ++ ". Moralis data unavailable." =
      pre ++ "Contract address not found" ++ suf) := by
  refine ⟨?_, ?_, ?_, ?_⟩
  · simp only [get_crypto_price, h]
  · simp only [get_crypto_metadata, h]
  · have hm := get_token_contract_moralisN env s c st
    rw [h] at hm
    exact hm
  · refine ⟨"", " for token " ++ s ++ " on chain " ++ c ++
      ". Moralis data unavailable.", ?_⟩
    have hsplit : "Contract address not found for token " =
        "Contract address not found" ++ " for token " := rfl
    simp only [String.append_assoc]
    rw [hsplit, String.append_assoc]
    simp

/-- Witness for C5: with the neutral environment and symbol "SOL" the
pipeline returns absent without touching the state, so the gate fires from
the initial state. -/
theorem c5_absent_contract_gates_pricing_witness :
    get_crypto_price envEmpty "SOL" "eth" St.init =
      (.ok (.failure ("Contract address not found for token " ++ "SOL" ++
        " on chain " ++ "eth" ++ ". Moralis data unavailable.") none),
       St.init) ∧
    get_crypto_metadata envEmpty "SOL" "eth" St.init =
      (.ok (.failure ("Unable to retrieve contract address for token " ++
        "SOL" ++ " on chain " ++ "eth") none), St.init) :=
  ⟨(c5_absent_contract_gates_pricing envEmpty "SOL" "eth" St.init St.init
      rfl).1,
   (c5_absent_contract_gates_pricing envEmpty "SOL" "eth" St.init St.init
      rfl).2.1⟩

/-- C1: fallback ordering.  For every symbol outside the native and
unsupported short-circuit sets and every non-empty address, against a
provider where the primary attempt and the first wrapped variant each
resolve a token id whose platform mapping has no address and the second
wrapped variant resolves to the address: the pipeline returns that
address, and the full trace is exactly three token-id lookups and three
contract lookups — so exactly 2 of each were issued before the successful
stage — in the order primary ("{symbol}" lowercased), first variant
("wrapped {symbol}"), second variant ("w{lowercased symbol}"), with the
Ethplorer provider never consulted (no `eth` event in the trace). -/
theorem c1_fallback_ordering (s a : String)
    (h1 : (["ETH", "ETHEREUM"].contains (pyUpper s)) = false)
    (h2 : (["SOL", "SOLANA", "XLM", "STELLAR"].contains (pyUpper s)) = false)
    (h3 : (a == "") = false) :
    get_token_contract (envFallback a) s "eth" St.init =
      (.ok (some a),
       { searchN := 3, detailN := 3, ethN := 0, moralisN := 0, clock := 0,
         trace := [.search (pyLower s), .detail "id0",
                   .search (pyLower ("wrapped " ++ s)), .detail "id1",
                   .search (pyLower ("w" ++ pyLower s)), .detail "id2"] }) := by
  simp at h1 h2
  simp [get_token_contract, h1, h2, h3, get_token_id, tokenIdLoop,
    get_contract_from_coingecko, tryWrapped, ethplorerStage, envFallback,
    envEmpty, St.init, St.logSearch, St.logDetail, St.logSleep, pyTruthy,
    sLookup, PLATFORM_MAPPING]

/-- Witness for C1 at symbol "BTC" and address "0xBTC123". -/
theorem c1_fallback_ordering_witness :
    get_token_contract (envFallback "0xBTC123") "BTC" "eth" St.init =
      (.ok (some "0xBTC123"),
       { searchN := 3, detailN := 3, ethN := 0, moralisN := 0, clock := 0,
         trace := [.search (pyLower "BTC"), .detail "id0",
                   .search (pyLower ("wrapped " ++ "BTC")), .detail "id1",
                   .search (pyLower ("w" ++ pyLower "BTC")), .detail "id2"] }) :=
  c1_fallback_ordering "BTC" "0xBTC123" (by decide) (by decide) (by decide)

/-- Witness for C4 at symbol "sol" (lowercase) on chain "polygon". -/
theorem c4_unsupported_short_circuit_witness :
    (["SOL", "SOLANA", "XLM", "STELLAR"].contains (pyUpper "sol")) = true ∧
    get_token_contract envEmpty "sol" "polygon" St.init = (.ok none, St.init) :=
  ⟨by decide,
   c4_unsupported_short_circuit envEmpty "sol" "polygon" St.init
     (by decide) (by decide)⟩

/-- C6, evaluated at the failing input: the source of
`generate_crypto_report` indexes `data["current_price"]` while building
the prompt with no error guard, so when `get_crypto_price` returns its
error dictionary (here: symbol "SOL", whose resolution short-circuits to
absent with zero network calls) the report generator raises an uncaught
KeyError instead of propagating the error result unchanged. -/
theorem c6_report_keyerror_on_error_result :
    generate_crypto_report envEmpty (fun _ => "summary") "SOL" St.init =
      (.error .keyError, St.init) := rfl

/-- C7 counterexample: the claim quantifies over every 2xx well-formed
pricing response, but the source tests `status_code != 200`, so a
well-formed 201 response yields an error result, not a PriceRecord. -/
theorem c7_counterexample_status_201 :
    get_crypto_price envMoralis201 "ETH" "eth" St.init =
      (.ok (.failure "Moralis API error. Code: 201" (some "t201")),
       St.init.logMoralis wethAddress "eth") ∧
    (∀ r : PriceRecord,
      PriceResult.failure "Moralis API error. Code: 201" (some "t201") ≠
        .record r) :=
  ⟨rfl, fun _ h => PriceResult.noConfusion h⟩

/-- C7 amended (2xx tightened to exactly HTTP 200): whenever the pipeline
resolves a truthy address and the pricing provider answers 200 with a
well-formed body, `get_crypto_price` returns a PriceRecord whose source is
"Moralis", whose raw_response retains the full upstream payload, and each
of whose six data fields equals the "N/A" marker whenever its key is
absent from the payload. -/
theorem c7_record_normalization (env : Env) (s c : String) (st stp : St)
    (addr : String) (data : List (String × JVal)) (text : String)
    (h : get_token_contract env s c st = (.ok (some addr), stp))
    (ha : (addr == "") = false)
    (hm : env.moralis addr c stp.moralisN =
      { status := 200, body := some data, text := text }) :
    ∃ r : PriceRecord,
      get_crypto_price env s c st =
        (.ok (.record r), stp.logMoralis addr c) ∧
      r.symbol = s ∧ r.source = "Moralis" ∧ r.raw_response = data ∧
      (jLookup data "usdPrice" = none → r.current_price = NA) ∧
      (jLookup data "priceChange" = none → r.price_change_24h = NA) ∧
      (jLookup data "priceChangePercent" = none →
        r.price_change_percent = NA) ∧
      (jLookup data "highPrice" = none → r.high_24h = NA) ∧
      (jLookup data "lowPrice" = none → r.low_24h = NA) ∧
      (jLookup data "volume" = none → r.volume = NA) := by
  refine ⟨{ symbol := s
            current_price := pyGet data "usdPrice" NA
            price_change_24h := pyGet data "priceChange" NA
            price_change_percent := pyGet data "priceChangePercent" NA
            high_24h := pyGet data "highPrice" NA
            low_24h := pyGet data "lowPrice" NA
            volume := pyGet data "volume" NA
            source := "Moralis"
            raw_response := data }, ?_, rfl, rfl, rfl, ?_, ?_, ?_, ?_, ?_, ?_⟩
  · simp [get_crypto_price, h, ha, hm]
  all_goals intro hk; simp only [pyGet, hk, Option.getD]

/-- Witness for C7: a 200 response whose body lacks the "volume" key
yields a record whose volume field is the "N/A" marker. -/
theorem c7_record_normalization_witness :
    ∃ r : PriceRecord,
      get_crypto_price envMoralisNoVolume "ETH" "eth" St.init =
        (.ok (.record r), St.init.logMoralis wethAddress "eth") ∧
      r.source = "Moralis" ∧ r.volume = NA ∧
      r.raw_response = [("usdPrice", .jnum 65000)] := by
  obtain ⟨r, h1, _, h3, h4, _, _, _, _, _, h10⟩ :=
    c7_record_normalization envMoralisNoVolume "ETH" "eth" St.init St.init
      wethAddress [("usdPrice", .jnum 65000)] "ok" rfl rfl rfl
  exact ⟨r, h1, h3, h10 rfl, h4⟩

/-- C10 counterexample: the claim quantifies over every 2xx well-parsed
pricing response with a falsy tokenAddress, but the source tests
`status_code != 200`, so a well-formed 201 response (whose body lacks
tokenAddress) yields the status error result, not the
"Contract address not found" error result. -/
theorem c10_counterexample_status_201 :
    get_crypto_metadata envMoralis201 "ETH" "eth" St.init =
      (.ok (.failure "Moralis API error. Code: 201" (some "t201")),
       St.init.logMoralis wethAddress "eth") ∧
    optTruthy (jLookup [("usdPrice", .jnum 65000)] "tokenAddress") = false ∧
    MetaResult.failure "Moralis API error. Code: 201" (some "t201") ≠
      MetaResult.failure "Contract address not found" none :=
  ⟨rfl, rfl, by decide⟩

/-- C10 amended (2xx tightened to exactly HTTP 200): when the pipeline
resolves a truthy address and the pricing provider answers 200 with a
well-parsed body whose tokenAddress is absent or falsy,
`get_crypto_metadata` discards the parsed fields and returns the error
result "Contract address not found"; and conversely a MetadataRecord is
only ever returned with a truthy (present, non-null, non-empty)
tokenAddress. -/
theorem c10_metadata_token_address_gate :
    (∀ (env : Env) (s c : String) (st stp : St) (addr : String)
       (data : List (String × JVal)) (text : String),
       get_token_contract env s c st = (.ok (some addr), stp) →
       (addr == "") = false →
       env.moralis addr c stp.moralisN =
         { status := 200, body := some data, text := text } →
       optTruthy (jLookup data "tokenAddress") = false →
       get_crypto_metadata env s c st =
         (.ok (.failure "Contract address not found" none),
          stp.logMoralis addr c)) ∧
    (∀ (env : Env) (s c : String) (st st2 : St) (r : MetadataRecord),
       get_crypto_metadata env s c st = (.ok (.record r), st2) →
       optTruthy r.tokenAddress = true) := by
  constructor
  · intro env s c st stp addr data text h ha hm ht
    simp [get_crypto_metadata, h, ha, hm, ht]
  · intro env s c st st2 r h
    simp only [get_crypto_metadata] at h
    split at h
    · exact absurd h (by simp)
    · split at h
      · exact absurd h (by simp)
      · split at h
        · exact absurd h (by simp)
        · split at h
          · exact absurd h (by simp)
          · split at h
            · exact absurd h (by simp)
            · split at h
              · next hguard =>
                simp only [Prod.mk.injEq] at h
                obtain ⟨h1, -⟩ := h
                obtain rfl := (MetaResult.record.injEq _ _).mp
                  (Except.ok.injEq _ _ ▸ h1)
                exact hguard
              · exact absurd h (by simp)

/-- Witness for C10: a 200 response with an empty parsed body (so
tokenAddress absent) makes the metadata service answer
"Contract address not found" even though parsing succeeded. -/
theorem c10_metadata_token_address_gate_witness :
    get_crypto_metadata envMoralisEmptyBody "ETH" "eth" St.init =
      (.ok (.failure "Contract address not found" none),
       St.init.logMoralis wethAddress "eth") :=
  c10_metadata_token_address_gate.1 envMoralisEmptyBody "ETH" "eth" St.init
    St.init wethAddress [] "ok" rfl rfl rfl rfl

/-- A search response which the token-id resolver can consume without
raising: its body parses as JSON and, when the coin list is non-empty, the
first entry carries an id. -/
def SearchResp.wf (r : SearchResp) : Bool :=
  match r.body with
  | none => false
  | some [] => true
  | some (none :: _) => false
  | some (some _ :: _) => true

/-- A detail response which the contract resolver can consume without
raising: its body parses as JSON. -/
def DetailResp.wf (r : DetailResp) : Bool :=
  match r.body with
  | none => false
  | some _ => true

/-- Under well-formed search responses the retry loop never faults. -/
theorem tokenIdLoop_no_fault (env : Env) (q : String)
    (hs : ∀ k, ((env.search q k).wf) = true) :
    ∀ (n : Nat) (st : St), ∃ v st2, tokenIdLoop env q n st = (.ok v, st2) := by
  intro n
  induction n with
  | zero => intro st; exact ⟨none, st, rfl⟩
  | succ n ih =>
    intro st
    have hw := hs st.searchN
    simp only [SearchResp.wf] at hw
    simp only [tokenIdLoop]
    split
    · exact ih _
    · split
      · exact ⟨none, _, rfl⟩
      · split
        · next heq => rw [heq] at hw; exact absurd hw (by simp)
        · exact ⟨none, _, rfl⟩
        · next heq => rw [heq] at hw; exact absurd hw (by simp)
        · next tid _ heq => exact ⟨some tid, _, rfl⟩

/-- Under well-formed detail responses the contract resolver never
faults. -/
theorem get_contract_no_fault (env : Env) (tid : Option String) (c : String)
    (st : St) (hd : ∀ t k, ((env.detail t k).wf) = true) :
    ∃ v st2, get_contract_from_coingecko env tid c st = (.ok v, st2) := by
  simp only [get_contract_from_coingecko]
  split
  · exact ⟨none, st, rfl⟩
  · next t =>
    have hw := hd t st.detailN
    simp only [DetailResp.wf] at hw
    split
    · exact ⟨none, _, rfl⟩
    · split
      · exact ⟨none, _, rfl⟩
      · split
        · next heq => rw [heq] at hw; exact absurd hw (by simp)
        · exact ⟨_, _, rfl⟩

/-- Under well-formed search and detail responses the wrapped-variant loop
never faults. -/
theorem tryWrapped_no_fault (env : Env) (c : String)
    (hs : ∀ q k, ((env.search q k).wf) = true)
    (hd : ∀ t k, ((env.detail t k).wf) = true) :
    ∀ (qs : List String) (st : St),
      ∃ v st2, tryWrapped env c qs st = (.ok v, st2) := by
  intro qs
  induction qs with
  | nil => intro st; exact ⟨none, st, rfl⟩
  | cons q qs ih =>
    intro st
    obtain ⟨v1, st1, h1⟩ :=
      tokenIdLoop_no_fault env (pyLower q) (fun k => hs _ k) 3 st
    simp only [tryWrapped, get_token_id, h1]
    obtain ⟨v2, st2, h2⟩ := get_contract_no_fault env v1 c st1 hd
    simp only [h2]
    by_cases hb : pyTruthy v2 = true
    · simp only [hb, if_true]; exact ⟨_, _, rfl⟩
    · rw [if_neg hb]; exact ih st2

/-- C8 counterexample, both escaping-fault cases at concrete inputs.
First conjunct: a 200 search response whose body is malformed JSON is
parsed by `response.json()` outside any try block, so the decode exception
escapes `get_token_contract` as an uncaught fault.  Second conjunct: a 200
search response whose body parses but whose first coin entry lacks an
"id" key makes `coins[0]["id"]` raise a KeyError, which likewise escapes.
Either case refutes the claim that no failure escapes as an uncaught
fault. -/
theorem c8_counterexample_malformed_search_body :
    get_token_contract envBadBody "BTC" "eth" St.init =
      (.error .jsonDecode, St.init.logSearch (pyLower "BTC")) ∧
    get_token_contract envNoId "BTC" "eth" St.init =
      (.error .keyError, St.init.logSearch (pyLower "BTC")) :=
  ⟨rfl, rfl⟩

/-- C8 amended: exceptions are caught only at the last-resort Ethplorer
stage.  Whenever every search response is well-formed in the sense of
`SearchResp.wf` — its body parses as JSON and, when the coin list is
non-empty, the first entry carries an "id" key — and every detail
response is well-formed in the sense of `DetailResp.wf` — its body parses
as JSON — the pipeline returns a structured `.ok` result for every
symbol, chain and starting state, and for arbitrary Ethplorer behaviour —
including a malformed Ethplorer body, whose exception the source catches —
and for arbitrary statuses and empty result sets everywhere (those advance
the fallback chain structurally).  Outside these hypotheses a fault can
escape: a malformed 200 body at the token-id or contract-resolver stage,
or a parsed 200 search body whose first coin entry lacks an "id", escapes
as an uncaught exception (both shown concretely by the counterexample
theorem). -/
theorem c8_structured_results (env : Env) (s c : String) (st : St)
    (hs : ∀ q k, ((env.search q k).wf) = true)
    (hd : ∀ t k, ((env.detail t k).wf) = true) :
    ∃ v st2, get_token_contract env s c st = (.ok v, st2) := by
  simp only [get_token_contract]
  split
  · exact ⟨_, _, rfl⟩
  · split
    · exact ⟨_, _, rfl⟩
    · obtain ⟨v1, st1, h1⟩ :=
        tokenIdLoop_no_fault env (pyLower s) (fun k => hs _ k) 3 st
      simp only [get_token_id, h1]
      obtain ⟨v2, st2, h2⟩ := get_contract_no_fault env v1 c st1 hd
      simp only [h2]
      by_cases hb : pyTruthy v2 = true
      · simp only [hb, if_true]; exact ⟨_, _, rfl⟩
      · rw [if_neg hb]
        obtain ⟨v3, st3, h3⟩ := tryWrapped_no_fault env c hs hd
          ["wrapped " ++ s, "w" ++ pyLower s, "wrapped-" ++ pyLower s] st2
        simp only [h3]
        by_cases hb3 : pyTruthy v3 = true
        · simp only [hb3, if_true]; exact ⟨_, _, rfl⟩
        · rw [if_neg hb3]
          rcases h4 : ethplorerStage env s st3 with ⟨oa, st4⟩
          cases oa <;> simp only [h4] <;> exact ⟨_, _, rfl⟩

/-- Witness for C8 with the neutral environment (well-formed bodies
everywhere): the pipeline ends in a structured `.ok` result. -/
theorem c8_structured_results_witness :
    ∃ v st2, get_token_contract envEmpty "BTC" "eth" St.init = (.ok v, st2) :=
  c8_structured_results envEmpty "BTC" "eth" St.init
    (fun _ _ => rfl) (fun _ _ => rfl)

/-- The Ethplorer stage only ever yields a non-empty address: the first
token's address is returned only when truthy. -/
theorem ethplorerStage_no_empty (env : Env) (s : String) (st st2 : St)
    (a : String) (h : ethplorerStage env s st = (some a, st2)) : a ≠ "" := by
  simp only [ethplorerStage] at h
  split at h
  · split at h
    · exact absurd h (by simp)
    · exact absurd h (by simp)
    · exact absurd h (by simp)
    · split at h
      · next hguard =>
        simp only [Prod.mk.injEq] at h
        obtain ⟨rfl, -⟩ := h
        simpa [pyTruthy] using hguard
      · exact absurd h (by simp)
  · exact absurd h (by simp)

/-- C9: the contract resolution pipeline treats an empty-string contract
address exactly like an absent one.  First conjunct: for every
environment, symbol, chain and starting state, whenever `get_token_contract`
returns an address it is not the empty string — the pipeline never returns
`""` even though `_get_contract_from_coingecko` passes an empty-string
platform entry through verbatim.  Second conjunct: in the scenario where
the primary attempt resolves a coin whose platform mapping maps the
chain's platform key to `""`, the pipeline does not return it but advances
through the wrapped-variant stages and Ethplorer (the trace shows the
empty-string stage was treated as a failure) and ends with absent. -/
theorem c9_empty_address_is_absent :
    (∀ (env : Env) (s c : String) (st : St) (a : String) (st2 : St),
      get_token_contract env s c st = (.ok (some a), st2) → a ≠ "") ∧
    get_token_contract envEmptyAddr "BTC" "eth" St.init =
      (.ok none,
       { searchN := 4, detailN := 1, ethN := 1, moralisN := 0, clock := 0,
         trace := [.search (pyLower "BTC"), .detail "tok",
                   .search (pyLower ("wrapped " ++ "BTC")),
                   .search (pyLower ("w" ++ pyLower "BTC")),
                   .search (pyLower ("wrapped-" ++ pyLower "BTC")),
                   .eth "BTC"] }) := by
  constructor
  · intro env s c st a st2 h
    simp only [get_token_contract] at h
    split at h
    · simp only [Prod.mk.injEq, Except.ok.injEq, Option.some.injEq] at h
      obtain ⟨h1, -⟩ := h
      subst h1
      decide
    · split at h
      · exact absurd h (by simp)
      · split at h
        · exact absurd h (by simp)
        · split at h
          · exact absurd h (by simp)
          · split at h
            · next hguard =>
              simp only [Prod.mk.injEq, Except.ok.injEq] at h
              obtain ⟨rfl, -⟩ := h
              simpa [pyTruthy] using hguard
            · split at h
              · exact absurd h (by simp)
              · split at h
                · next hguard =>
                  simp only [Prod.mk.injEq, Except.ok.injEq] at h
                  obtain ⟨rfl, -⟩ := h
                  simpa [pyTruthy] using hguard
                · split at h
                  · next heq =>
                    simp only [Prod.mk.injEq, Except.ok.injEq,
                      Option.some.injEq] at h
                    obtain ⟨h1, -⟩ := h
                    subst h1
                    exact ethplorerStage_no_empty _ _ _ _ _ heq
                  · exact absurd h (by simp)
  · rfl

/-- Witness for C9's universal conjunct, applied to the native
short-circuit: the returned WETH address is non-empty, and the pipeline
run it comes from is exhibited concretely. -/
theorem c9_empty_address_is_absent_witness :
    get_token_contract envEmpty "ETH" "eth" St.init =
      (.ok (some wethAddress), St.init) ∧ wethAddress ≠ "" :=
  ⟨rfl, c9_empty_address_is_absent.1 envEmpty "ETH" "eth" St.init
    wethAddress St.init rfl⟩

end CryptoApi
